import Mathlib

/-!
Shallow embedding of `src/ape/api/providers.py` (the `ape` transaction /
provider API core): the transaction and receipt data model, the fee
accessors, the confirmation-wait state machine of
`ReceiptAPI.await_confirmations`, and `Web3Provider`'s `get_transaction`
and `base_fee` operations, together with theorems settling the spec's
claims about them.

Python unbounded `int` fields are modelled as `Int`; opaque external
values (addresses, hashes, signatures, raw log dictionaries) are carried
as `String` / association lists and never computed with.  Exceptions are
modelled by the `ApeError` sum type and fallible operations return
`Except ApeError _`.  The blocking polling loops of
`await_confirmations` are modelled as fuelled recursions over streams of
poll results (`Nat → Int` gives the value the provider would return at
the i-th poll); `none` means the fuel ran out before the real loop's
exit condition was reached.
-/

namespace Ape

/-- Exceptions raised in `providers.py`.  `providerError` models
`ape.exceptions.ProviderError` (the spec's ValidationError),
`transactionError` models `ape.exceptions.TransactionError` (the spec's
InvalidArgumentError for the negative-confirmations guard), and
`notImplementedError` models Python's `NotImplementedError` (the spec's
UnsupportedOperationError). -/
inductive ApeError where
  | providerError (msg : String)
  | transactionError (msg : String)
  | notImplementedError (msg : String)
deriving DecidableEq, Repr

/-- `class TransactionType(Enum)`: STATIC = "0x0", DYNAMIC = "0x2". -/
inductive TransactionType where
  | STATIC
  | DYNAMIC
deriving DecidableEq, Repr

/-- `class TransactionStatusEnum(IntEnum)`: FAILING = 0, NO_ERROR = 1. -/
inductive TransactionStatusEnum where
  | FAILING
  | NO_ERROR
deriving DecidableEq, Repr

/-- The fields of `TransactionAPI` (an `abstractdataclass`).  The
`signature` (a `TransactionSignature`) is opaque external data, carried
as a `String`. -/
structure TransactionAPI where
  chain_id : Int := 0
  sender : String := ""
  receiver : String := ""
  nonce : Option Int := none
  value : Int := 0
  gas_limit : Option Int := none
  data : List Nat := []
  type : TransactionType := TransactionType.STATIC
  required_confirmations : Option Int := none
  signature : Option String := none
deriving DecidableEq, Repr

/-- `TransactionAPI.__post_init__`: constructing the dataclass runs
`if not self.is_valid: raise ProviderError("Transaction is not valid.")`.
`is_valid` is an `abstractmethod` (backend- and variant-specific), so it
is a parameter here; construction returns the record only when the check
passes. -/
def mkTransactionAPI (is_valid : TransactionAPI → Bool) (fields : TransactionAPI) :
    Except ApeError TransactionAPI :=
  if is_valid fields then Except.ok fields
  else Except.error (ApeError.providerError "Transaction is not valid.")

/-- The base (non-overridden) `TransactionAPI.max_fee` property getter:
`return 0`. -/
def TransactionAPI.max_fee_base (_txn : TransactionAPI) : Except ApeError Int :=
  Except.ok 0

/-- The base `TransactionAPI.max_fee` property setter:
`raise NotImplementedError("Max fee is not settable by default.")`.
No transaction field is assigned before the raise, so no updated
transaction is ever produced. -/
def TransactionAPI.set_max_fee (_txn : TransactionAPI) (_value : Int) :
    Except ApeError TransactionAPI :=
  Except.error (ApeError.notImplementedError "Max fee is not settable by default.")

/-- `TransactionAPI.total_transfer_value`:
`return self.value + self.max_fee`.  The `max_fee` read dispatches to
the fee-variant subclass's override of the getter, modelled by the
`max_fee` function parameter. -/
def TransactionAPI.total_transfer_value (max_fee : TransactionAPI → Int)
    (txn : TransactionAPI) : Int :=
  txn.value + max_fee txn

/-- The fields of `ReceiptAPI` (an `abstractdataclass`).  The `provider`
back-reference is not a data field; it is modelled by the poll-result
streams passed to `ReceiptAPI.await_confirmations`.  Raw log
dictionaries are opaque string association lists. -/
structure ReceiptAPI where
  txn_hash : String
  status : TransactionStatusEnum
  block_number : Int
  gas_used : Int
  gas_price : Int
  logs : List (List (String × String)) := []
  contract_address : Option String := none
  required_confirmations : Int := 0
  sender : String
  nonce : Int
deriving DecidableEq, Repr

/-- `ReceiptAPI.ran_out_of_gas`:
`return self.status == TransactionStatusEnum.FAILING and self.gas_used == gas_limit`. -/
def ReceiptAPI.ran_out_of_gas (r : ReceiptAPI) (gas_limit : Int) : Bool :=
  r.status == TransactionStatusEnum.FAILING && r.gas_used == gas_limit

/-- The nonce-settle phase of `ReceiptAPI.await_confirmations`:
```
sender_nonce = self.provider.get_nonce(self.sender)
while sender_nonce == self.nonce:
    time.sleep(1)
    sender_nonce = self.provider.get_nonce(self.sender)
```
`get_nonce i` is the value the provider returns at the i-th
`get_nonce` call; the loop returns the index of the first call whose
result differs from `nonce` (so `result + 1` calls were made), or
`none` when the fuel runs out first. -/
def nonceSettleLoop (get_nonce : Nat → Int) (nonce : Int) :
    Nat → Nat → Option Nat
  | 0, _ => none
  | fuel + 1, i =>
    if get_nonce i = nonce then nonceSettleLoop get_nonce nonce fuel (i + 1)
    else some i

/-- The depth-confirm phase of `ReceiptAPI.await_confirmations`:
```
confirmations_occurred = 0
with ConfirmationsProgressBar(self.required_confirmations) as progress_bar:
    while confirmations_occurred < self.required_confirmations:
        latest_block = self.provider.get_block("latest")
        confirmations_occurred = latest_block.number - self.block_number
        progress_bar.confs = confirmations_occurred
        if confirmations_occurred == self.required_confirmations:
            break
        time.sleep(5)
```
`get_block i` is the number of the latest block at the i-th `get_block`
call; `i` is the number of `get_block` calls made so far.  Returns the
list of confirmation counts assigned to the progress bar (in order) and
the total number of `get_block` calls, or `none` when the fuel runs out
before the loop exits. -/
def depthConfirmLoop (get_block : Nat → Int) (block_number required_confirmations : Int) :
    Nat → Int → Nat → Option (List Int × Nat)
  | 0, _, _ => none
  | fuel + 1, confirmations_occurred, i =>
    if confirmations_occurred < required_confirmations then
      let c := get_block i - block_number
      if c = required_confirmations then some ([c], i + 1)
      else
        match depthConfirmLoop get_block block_number required_confirmations fuel c (i + 1) with
        | some (reports, polls) => some (c :: reports, polls)
        | none => none
    else some ([], i)

/-- `ReceiptAPI.await_confirmations`: the nonce-settle loop, then the
early return `if self.required_confirmations == 0: return self`, then
the depth-confirm loop, then `return self`.  Returns the receipt the
method returns, the number of `get_nonce` calls, the confirmation
counts reported to the progress bar, and the number of `get_block`
calls; `none` when a loop's fuel runs out. -/
def ReceiptAPI.await_confirmations (get_nonce get_block : Nat → Int)
    (nonceFuel depthFuel : Nat) (r : ReceiptAPI) :
    Option (ReceiptAPI × Nat × List Int × Nat) :=
  match nonceSettleLoop get_nonce r.nonce nonceFuel 0 with
  | none => none
  | some k =>
    if r.required_confirmations = 0 then some (r, k + 1, [], 0)
    else
      match depthConfirmLoop get_block r.block_number r.required_confirmations depthFuel 0 0 with
      | some (reports, polls) => some (r, k + 1, reports, polls)
      | none => none

/-- `BlockGasAPI` fields: `gas_limit`, `gas_used`,
`base_fee: Optional[int] = None`. -/
structure BlockGasAPI where
  gas_limit : Int
  gas_used : Int
  base_fee : Option Int := none
deriving DecidableEq, Repr

/-- `BlockConsensusAPI` fields. -/
structure BlockConsensusAPI where
  difficulty : Option Int := none
  total_difficulty : Option Int := none
deriving DecidableEq, Repr

/-- `BlockAPI` fields.  Hashes (`HexBytes`) are opaque, carried as
byte lists; the float `timestamp` is only carried, never computed with,
and is modelled as an `Int`. -/
structure BlockAPI where
  gas_data : BlockGasAPI
  consensus_data : BlockConsensusAPI
  hash : List Nat
  number : Int
  parent_hash : List Nat
  size : Int
  timestamp : Int
deriving DecidableEq, Repr

/-- The base `ProviderAPI.priority_fee` property:
`raise NotImplementedError("priority_fee is not implemented by this provider")`. -/
def ProviderAPI.priority_fee_base : Except ApeError Int :=
  Except.error (ApeError.notImplementedError "priority_fee is not implemented by this provider")

/-- The base `ProviderAPI.base_fee` property:
`raise NotImplementedError("base_fee is not implemented by this provider")`. -/
def ProviderAPI.base_fee_base : Except ApeError Int :=
  Except.error (ApeError.notImplementedError "base_fee is not implemented by this provider")

/-- `Web3Provider.base_fee`: fetch the latest block via
`self.get_block("latest")` (modelled by the `get_block` parameter),
raise `NotImplementedError` when its `gas_data.base_fee` is `None`,
return it otherwise. -/
def Web3Provider.base_fee (get_block : String → BlockAPI) : Except ApeError Int :=
  let block := get_block "latest"
  match block.gas_data.base_fee with
  | none =>
    Except.error (ApeError.notImplementedError "base_fee is not implemented by this provider.")
  | some fee => Except.ok fee

/-- `Web3Provider.get_transaction(txn_hash, required_confirmations=0)`:
the negative-confirmations guard, then the backend receipt wait and
transaction fetch (two backend calls whose decoded combination is
modelled by the abstract `decode`, standing for
`self.network.ecosystem.receipt_class.decode({...})`), then
`receipt.await_confirmations()`.  Returns the call's result together
with the total number of backend calls made (`wait_for_transaction_receipt`,
`eth.get_transaction`, and every `get_nonce` / `get_block` poll);
`none` when the confirmation wait's fuel runs out. -/
def Web3Provider.get_transaction (decode : String → Int → ReceiptAPI)
    (get_nonce get_block : Nat → Int) (nonceFuel depthFuel : Nat)
    (txn_hash : String) (required_confirmations : Int) :
    Option (Except ApeError ReceiptAPI × Nat) :=
  if required_confirmations < 0 then
    some (Except.error (ApeError.transactionError "Required confirmations cannot be negative."), 0)
  else
    let receipt := decode txn_hash required_confirmations
    match receipt.await_confirmations get_nonce get_block nonceFuel depthFuel with
    | none => none
    | some (r, noncePolls, _reports, blockPolls) =>
      some (Except.ok r, 2 + noncePolls + blockPolls)

/-- A concrete receipt used to exercise the confirmation wait:
mined in block 0, nonce 5, two required confirmations. -/
def sampleReceipt : ReceiptAPI :=
  { txn_hash := "0xabc", status := TransactionStatusEnum.NO_ERROR, block_number := 0,
    gas_used := 21000, gas_price := 10, required_confirmations := 2,
    sender := "0xsender", nonce := 5 }

/-- The nonce-settle loop returns the index `k` of the first `get_nonce`
poll whose result differs from the receipt's nonce, given enough fuel. -/
theorem nonceSettleLoop_eq (get_nonce : Nat → Int) (nonce : Int) :
    ∀ (fuel i k : Nat), i ≤ k → (∀ j, i ≤ j → j < k → get_nonce j = nonce) →
      get_nonce k ≠ nonce → k + 1 ≤ i + fuel →
      nonceSettleLoop get_nonce nonce fuel i = some k := by
  intro fuel
  induction fuel with
  | zero => intro i k hik _ _ hfuel; omega
  | succ f ih =>
    intro i k hik hall hk hfuel
    simp only [nonceSettleLoop]
    by_cases hi : get_nonce i = nonce
    · have hik' : i < k := by
        rcases Nat.lt_or_ge i k with h | h
        · exact h
        · exact absurd (le_antisymm hik h ▸ hi) hk
      rw [if_pos hi]
      exact ih (i + 1) k hik' (fun j hj1 hj2 => hall j (by omega) hj2) hk (by omega)
    · have hieq : i = k := by
        rcases Nat.lt_or_ge i k with h | h
        · exact absurd (hall i le_rfl h) hi
        · exact le_antisymm hik h
      rw [if_neg hi, hieq]

/-- The depth-confirm loop, started at poll index `i` with a running
count still below the required depth, performs exactly the polls
`i, …, stop` — `stop` being the first index at which the observed
confirmation count reaches the required depth — reports each observed
count in order, and stops. -/
theorem depthConfirmLoop_eq (get_block : Nat → Int)
    (block_number required_confirmations : Int) (stop : Nat)
    (hstop : required_confirmations ≤ get_block stop - block_number)
    (hfirst : ∀ j, j < stop → get_block j - block_number < required_confirmations) :
    ∀ (fuel i : Nat) (c : Int), i ≤ stop → c < required_confirmations →
      stop + 2 ≤ i + fuel →
      depthConfirmLoop get_block block_number required_confirmations fuel c i =
        some ((List.range' i (stop + 1 - i)).map (fun j => get_block j - block_number),
          stop + 1) := by
  intro fuel
  induction fuel with
  | zero => intro i c hi _ hf; omega
  | succ f ih =>
    intro i c hi hc hf
    simp only [depthConfirmLoop]
    rw [if_pos hc]
    rcases Nat.lt_or_ge i stop with hlt | hge
    · have hcnt := hfirst i hlt
      rw [if_neg (show ¬get_block i - block_number = required_confirmations by omega)]
      rw [ih (i + 1) (get_block i - block_number) hlt hcnt (by omega)]
      have h1 : stop + 1 - i = (stop - i) + 1 := by omega
      have h2 : stop + 1 - (i + 1) = stop - i := by omega
      rw [h1, h2, List.range'_succ]
      simp
    · have hieq : i = stop := le_antisymm hi hge
      subst hieq
      have h1 : i + 1 - i = 1 := by omega
      by_cases hEq : get_block i - block_number = required_confirmations
      · rw [if_pos hEq, h1, List.range'_succ]
        simp
      · rw [if_neg hEq]
        obtain ⟨g, rfl⟩ : ∃ g, f = g + 1 := ⟨f - 1, by omega⟩
        simp only [depthConfirmLoop]
        rw [if_neg (show ¬get_block i - block_number < required_confirmations by omega)]
        rw [h1, List.range'_succ]
        simp

/-- C4: `ran_out_of_gas` returns true iff the receipt's status is
FAILING and its `gas_used` equals the given gas limit exactly; false for
every other combination (in particular `gas_used` one unit below the
limit, or status NO_ERROR with `gas_used` equal to the limit). -/
theorem ran_out_of_gas_iff (r : ReceiptAPI) (gas_limit : Int) :
    r.ran_out_of_gas gas_limit = true ↔
      r.status = TransactionStatusEnum.FAILING ∧ r.gas_used = gas_limit := by
  simp [ReceiptAPI.ran_out_of_gas]

/-- C5: for every transaction of either fee variant (the variant's
`max_fee` getter override is the `max_fee` parameter) and all
non-negative `value` and `max_fee`, `total_transfer_value` equals
`value + max_fee`. -/
theorem total_transfer_value_eq (max_fee : TransactionAPI → Int) (txn : TransactionAPI)
    (_hv : 0 ≤ txn.value) (_hf : 0 ≤ max_fee txn) :
    txn.total_transfer_value max_fee = txn.value + max_fee txn := rfl

/-- Witness for C5 at `value = 100`, `max_fee = 50`. -/
theorem total_transfer_value_eq_witness :
    0 ≤ ({ value := 100 } : TransactionAPI).value ∧
    TransactionAPI.total_transfer_value (fun _ => 50) { value := 100 } = 100 + 50 :=
  ⟨by decide, total_transfer_value_eq (fun _ => 50) { value := 100 } (by decide) (by decide)⟩

/-- C6 counterexample: the base (non-overridden) `max_fee` getter,
invoked on a concrete transaction, returns `0` — a silent zero — and
does not fail with any error, contradicting the claim that every base
fee accessor fails with an unsupported-operation error. -/
theorem max_fee_base_returns_silent_zero :
    TransactionAPI.max_fee_base {} = Except.ok 0 ∧
      ∀ e : ApeError, TransactionAPI.max_fee_base {} ≠ Except.error e :=
  ⟨rfl, fun e h => by simp [TransactionAPI.max_fee_base] at h⟩

/-- C6 amended: the base provider-level `priority_fee` and `base_fee`
accessors fail with NotImplementedError (the unsupported-operation
error) when invoked, but the base `max_fee` getter of the transaction
returns a silent `0` rather than failing. -/
theorem base_fee_accessors_behaviour :
    (∀ txn : TransactionAPI, txn.max_fee_base = Except.ok 0) ∧
    ProviderAPI.priority_fee_base =
      Except.error
        (ApeError.notImplementedError "priority_fee is not implemented by this provider") ∧
    ProviderAPI.base_fee_base =
      Except.error
        (ApeError.notImplementedError "base_fee is not implemented by this provider") :=
  ⟨fun _ => rfl, rfl, rfl⟩

/-- C7: setting `max_fee` on a STATIC-variant transaction (which uses
the base, non-overridden setter) fails with NotImplementedError (the
unsupported-operation error) for every value, and never produces an
updated transaction. -/
theorem set_max_fee_static_fails (txn : TransactionAPI) (value : Int)
    (_h : txn.type = TransactionType.STATIC) :
    txn.set_max_fee value =
      Except.error (ApeError.notImplementedError "Max fee is not settable by default.") ∧
    ∀ txn' : TransactionAPI, txn.set_max_fee value ≠ Except.ok txn' :=
  ⟨rfl, fun txn' h' => by simp [TransactionAPI.set_max_fee] at h'⟩

/-- Witness for C7 at a concrete STATIC transaction and value 9. -/
theorem set_max_fee_static_fails_witness :
    TransactionAPI.set_max_fee {} 9 =
      Except.error (ApeError.notImplementedError "Max fee is not settable by default.") ∧
    ∀ txn' : TransactionAPI, TransactionAPI.set_max_fee {} 9 ≠ Except.ok txn' :=
  set_max_fee_static_fails {} 9 rfl

/-- C8: for every validity predicate and field combination for which
`is_valid` is false, construction fails with the validation error
(`ProviderError("Transaction is not valid.")`) raised by
`__post_init__`, and no constructed transaction is produced. -/
theorem construction_invalid_fails (is_valid : TransactionAPI → Bool)
    (fields : TransactionAPI) (h : is_valid fields = false) :
    mkTransactionAPI is_valid fields =
      Except.error (ApeError.providerError "Transaction is not valid.") ∧
    ∀ txn : TransactionAPI, mkTransactionAPI is_valid fields ≠ Except.ok txn := by
  refine ⟨by simp [mkTransactionAPI, h], fun txn h' => ?_⟩
  simp [mkTransactionAPI, h] at h'

/-- Witness for C8 with the always-false validity predicate. -/
theorem construction_invalid_fails_witness :
    mkTransactionAPI (fun _ => false) {} =
      Except.error (ApeError.providerError "Transaction is not valid.") ∧
    ∀ txn : TransactionAPI, mkTransactionAPI (fun _ => false) {} ≠ Except.ok txn :=
  construction_invalid_fails (fun _ => false) {} rfl

/-- C9: `Web3Provider.base_fee` raises NotImplementedError (the
unsupported-operation error) when the latest block's decoded gas data
has an absent (`none`) base fee, rather than returning 0; when the base
fee is present it returns exactly that value. -/
theorem web3_base_fee_spec (get_block : String → BlockAPI) :
    ((get_block "latest").gas_data.base_fee = none →
      Web3Provider.base_fee get_block =
        Except.error
          (ApeError.notImplementedError "base_fee is not implemented by this provider.")) ∧
    (∀ fee : Int, (get_block "latest").gas_data.base_fee = some fee →
      Web3Provider.base_fee get_block = Except.ok fee) := by
  constructor
  · intro h
    simp [Web3Provider.base_fee, h]
  · intro fee h
    simp [Web3Provider.base_fee, h]

/-- Witness for C9: one provider whose latest block lacks a base fee,
one whose latest block has base fee 7. -/
theorem web3_base_fee_spec_witness :
    Web3Provider.base_fee (fun _ =>
      { gas_data := { gas_limit := 30000000, gas_used := 0, base_fee := none },
        consensus_data := {}, hash := [], number := 5, parent_hash := [],
        size := 0, timestamp := 0 }) =
      Except.error
        (ApeError.notImplementedError "base_fee is not implemented by this provider.") ∧
    Web3Provider.base_fee (fun _ =>
      { gas_data := { gas_limit := 30000000, gas_used := 0, base_fee := some 7 },
        consensus_data := {}, hash := [], number := 5, parent_hash := [],
        size := 0, timestamp := 0 }) = Except.ok 7 :=
  ⟨(web3_base_fee_spec _).1 rfl, (web3_base_fee_spec _).2 7 rfl⟩

/-- C3: every negative `required_confirmations` passed to
`Web3Provider.get_transaction` fails with
`TransactionError("Required confirmations cannot be negative.")` (the
spec's InvalidArgumentError) with zero backend calls performed — no
receipt wait, no transaction fetch, no polling. -/
theorem get_transaction_negative_confirmations (decode : String → Int → ReceiptAPI)
    (get_nonce get_block : Nat → Int) (nonceFuel depthFuel : Nat)
    (txn_hash : String) (required_confirmations : Int)
    (h : required_confirmations < 0) :
    Web3Provider.get_transaction decode get_nonce get_block nonceFuel depthFuel
        txn_hash required_confirmations =
      some (Except.error
        (ApeError.transactionError "Required confirmations cannot be negative."), 0) := by
  simp [Web3Provider.get_transaction, h]

/-- Witness for C3 at `required_confirmations = -1`. -/
theorem get_transaction_negative_confirmations_witness :
    Web3Provider.get_transaction
      (fun _ _ => { txn_hash := "0xabc", status := TransactionStatusEnum.NO_ERROR,
                    block_number := 0, gas_used := 0, gas_price := 0,
                    sender := "", nonce := 0 })
      (fun _ => 0) (fun _ => 0) 1 1 "0xabc" (-1) =
      some (Except.error
        (ApeError.transactionError "Required confirmations cannot be negative."), 0) :=
  get_transaction_negative_confirmations _ _ _ _ _ _ _ (by decide)

/-- C1: for a receipt with `required_confirmations = N > 0`, assuming
the latest block number observed across successive polls is
non-decreasing, the depth-confirm phase of `await_confirmations`
terminates exactly at the first poll (`stop`, making `stop + 1`
`get_block` calls) at which `latest_block.number - block_number ≥ N`,
and the sequence of confirmation counts reported to the progress sink
is exactly the observed counts in order — monotonically non-decreasing
and ending at a value ≥ N. -/
theorem await_confirmations_depth_spec (get_nonce get_block : Nat → Int)
    (nonceFuel depthFuel : Nat) (r : ReceiptAPI) (k stop : Nat)
    (hN : 0 < r.required_confirmations)
    (hmono : ∀ i j, i ≤ j → get_block i ≤ get_block j)
    (hnall : ∀ j, j < k → get_nonce j = r.nonce)
    (hnk : get_nonce k ≠ r.nonce)
    (hnf : k + 1 ≤ nonceFuel)
    (hstop : r.required_confirmations ≤ get_block stop - r.block_number)
    (hfirst : ∀ j, j < stop →
      get_block j - r.block_number < r.required_confirmations)
    (hdf : stop + 2 ≤ depthFuel) :
    r.await_confirmations get_nonce get_block nonceFuel depthFuel =
      some (r, k + 1,
        (List.range (stop + 1)).map (fun j => get_block j - r.block_number),
        stop + 1) ∧
    List.Chain' (· ≤ ·)
      ((List.range (stop + 1)).map fun j => get_block j - r.block_number) ∧
    ((List.range (stop + 1)).map fun j => get_block j - r.block_number).getLast? =
      some (get_block stop - r.block_number) ∧
    r.required_confirmations ≤ get_block stop - r.block_number := by
  refine ⟨?_, ?_, ?_, hstop⟩
  · have hns := nonceSettleLoop_eq get_nonce r.nonce nonceFuel 0 k (Nat.zero_le k)
      (fun j _ hj => hnall j hj) hnk (by omega)
    have hdc := depthConfirmLoop_eq get_block r.block_number r.required_confirmations stop
      hstop hfirst depthFuel 0 0 (Nat.zero_le stop) hN (by omega)
    have hne : ¬r.required_confirmations = 0 := by omega
    unfold ReceiptAPI.await_confirmations
    rw [hns]
    simp [hne, hdc, List.range_eq_range']
  · rw [List.chain'_map]
    refine (List.chain'_range_succ _ stop).mpr fun m _ => ?_
    simp only [Nat.succ_eq_add_one]
    have := hmono m (m + 1) (Nat.le_succ m)
    omega
  · rw [List.range_succ, List.map_append]
    exact List.getLast?_concat _

/-- Witness for C1: nonce settles at the first poll, blocks advance by
one per poll starting at 1, two confirmations required, reaching depth
2 at the second block poll with reports [1, 2]. -/
theorem await_confirmations_depth_spec_witness :
    sampleReceipt.await_confirmations (fun _ => 6) (fun i => (i : Int) + 1) 1 3 =
      some (sampleReceipt, 0 + 1,
        (List.range (1 + 1)).map (fun j => ((j : Int) + 1) - sampleReceipt.block_number),
        1 + 1) ∧
    List.Chain' (· ≤ ·)
      ((List.range (1 + 1)).map fun j => ((j : Int) + 1) - sampleReceipt.block_number) ∧
    ((List.range (1 + 1)).map fun j =>
        ((j : Int) + 1) - sampleReceipt.block_number).getLast? =
      some (((1 : Nat) : Int) + 1 - sampleReceipt.block_number) ∧
    sampleReceipt.required_confirmations ≤ ((1 : Nat) : Int) + 1 - sampleReceipt.block_number :=
  await_confirmations_depth_spec (fun _ => 6) (fun i => (i : Int) + 1) 1 3
    sampleReceipt 0 1 (by decide)
    (fun i j h => by
      show (i : Int) + 1 ≤ (j : Int) + 1
      omega)
    (fun j hj => absurd hj (by omega))
    (by decide) (by decide) (by decide)
    (fun j hj => by
      interval_cases j
      decide)
    (by decide)

/-- C2: for a receipt with `required_confirmations = 0`,
`await_confirmations` returns immediately after the nonce-settle phase
(the `k + 1` `get_nonce` polls), performing zero depth-confirm polls —
zero `get_block` calls and no reported confirmation counts. -/
theorem await_confirmations_zero_required (get_nonce get_block : Nat → Int)
    (nonceFuel depthFuel : Nat) (r : ReceiptAPI) (k : Nat)
    (h0 : r.required_confirmations = 0)
    (hnall : ∀ j, j < k → get_nonce j = r.nonce)
    (hnk : get_nonce k ≠ r.nonce)
    (hnf : k + 1 ≤ nonceFuel) :
    r.await_confirmations get_nonce get_block nonceFuel depthFuel =
      some (r, k + 1, [], 0) := by
  have hns := nonceSettleLoop_eq get_nonce r.nonce nonceFuel 0 k (Nat.zero_le k)
    (fun j _ hj => hnall j hj) hnk (by omega)
  unfold ReceiptAPI.await_confirmations
  rw [hns]
  simp [h0]

/-- Witness for C2: a receipt with zero required confirmations whose
sender nonce settles at the first poll. -/
theorem await_confirmations_zero_required_witness :
    ReceiptAPI.await_confirmations (fun _ => 6) (fun i => (i : Int) + 1) 1 0
      { sampleReceipt with required_confirmations := 0 } =
      some ({ sampleReceipt with required_confirmations := 0 }, 0 + 1, [], 0) :=
  await_confirmations_zero_required (fun _ => 6) (fun i => (i : Int) + 1) 1 0
    { sampleReceipt with required_confirmations := 0 } 0 (by decide)
    (fun j hj => absurd hj (by omega)) (by decide) (by decide)

/-- C10: whenever `await_confirmations` returns, it returns the very
same receipt it was invoked on — every data field (txn_hash, status,
block_number, gas_used, gas_price, logs, contract_address,
required_confirmations, sender, nonce) unchanged — on both the
`required_confirmations = 0` path and the `required_confirmations > 0`
path. -/
theorem await_confirmations_returns_self (get_nonce get_block : Nat → Int)
    (nonceFuel depthFuel : Nat) (r r' : ReceiptAPI)
    (noncePolls blockPolls : Nat) (reports : List Int)
    (h : r.await_confirmations get_nonce get_block nonceFuel depthFuel =
      some (r', noncePolls, reports, blockPolls)) :
    r' = r ∧ r'.txn_hash = r.txn_hash ∧ r'.status = r.status ∧
    r'.block_number = r.block_number ∧ r'.gas_used = r.gas_used ∧
    r'.gas_price = r.gas_price ∧ r'.logs = r.logs ∧
    r'.contract_address = r.contract_address ∧
    r'.required_confirmations = r.required_confirmations ∧
    r'.sender = r.sender ∧ r'.nonce = r.nonce := by
  have hrr : r' = r := by
    unfold ReceiptAPI.await_confirmations at h
    split at h
    · exact absurd h (by simp)
    · split at h
      · simp only [Option.some.injEq, Prod.mk.injEq] at h
        exact h.1.symm
      · split at h
        · simp only [Option.some.injEq, Prod.mk.injEq] at h
          exact h.1.symm
        · exact absurd h (by simp)
  subst hrr
  exact ⟨rfl, rfl, rfl, rfl, rfl, rfl, rfl, rfl, rfl, rfl, rfl⟩

/-- Witness for C10: a concrete run of the confirmation wait (nonce
settles at the first poll, two depth polls reporting [1, 2]) returns
the receipt unchanged. -/
theorem await_confirmations_returns_self_witness :
    sampleReceipt = sampleReceipt ∧
    sampleReceipt.txn_hash = sampleReceipt.txn_hash ∧
    sampleReceipt.status = sampleReceipt.status ∧
    sampleReceipt.block_number = sampleReceipt.block_number ∧
    sampleReceipt.gas_used = sampleReceipt.gas_used ∧
    sampleReceipt.gas_price = sampleReceipt.gas_price ∧
    sampleReceipt.logs = sampleReceipt.logs ∧
    sampleReceipt.contract_address = sampleReceipt.contract_address ∧
    sampleReceipt.required_confirmations = sampleReceipt.required_confirmations ∧
    sampleReceipt.sender = sampleReceipt.sender ∧
    sampleReceipt.nonce = sampleReceipt.nonce :=
  await_confirmations_returns_self (fun _ => 6) (fun i => (i : Int) + 1) 1 3
    sampleReceipt sampleReceipt 1 2 [1, 2] (by decide)

end Ape
